import Mathlib

/-!
Verification development for the GrotButton firmware (`src/main.cpp`).

Strings of the Arduino `String` class are embedded as `List Char`; the
32-bit unsigned `millis()` clock arithmetic is embedded as `Nat` with an
explicit `% 2^32`; the C `int` counter `pendingRequests` is embedded as
`Int`.
-/

namespace GrotButton

/-! ### Arduino string primitives -/

/-- `isspace` as used by Arduino `String::trim`: space, `\t`, `\n`,
vertical tab, form feed, `\r`. -/
def isSpaceC (c : Char) : Bool :=
  c == ' ' || c == '\t' || c == '\n' || c == Char.ofNat 11 ||
  c == Char.ofNat 12 || c == '\r'

/-- Arduino `String::trim()`: remove whitespace from both ends. -/
def trimS (l : List Char) : List Char :=
  ((l.dropWhile isSpaceC).reverse.dropWhile isSpaceC).reverse

/-- Arduino `String::indexOf(char)`: first index of `c`, `-1` if absent. -/
def idxOf (c : Char) (l : List Char) : Int :=
  ((l.findIdx? (fun x => x == c)).map (Int.ofNat)).getD (-1)

/-- Split a character list at `'\n'` separators, mirroring the
`lineStart`/`lineEnd` scanning loop of `sendWebhookRequest`
(main.cpp lines 574-592): each `indexOf('\n')` bound yields one line.
(A trailing `'\n'` yields a final empty line, which the parser ignores,
exactly as the C loop stops at `lineStart == length`.) -/
def splitLines : List Char → List (List Char)
  | [] => [[]]
  | c :: rest =>
    if c = '\n' then [] :: splitLines rest
    else
      match splitLines rest with
      | [] => [[c]]
      | l :: ls => (c :: l) :: ls

/-! ### Webhook header parsing (`sendWebhookRequest`, main.cpp 573-592) -/

/-- One line of the header text, after the `indexOf('\n')` split:
`line.trim(); if (line.length() > 0) { int colon = line.indexOf(':');
if (colon > 0) { key = substring(0, colon); value = substring(colon+1);
key.trim(); value.trim(); addHeader(key, value); } }`. -/
def processLine (line : List Char) : Option (List Char × List Char) :=
  let t := trimS line
  if t.length > 0 then
    let colon := idxOf ':' t
    if 0 < colon then
      some (trimS (t.take colon.toNat), trimS (t.drop (colon.toNat + 1)))
    else none
  else none

/-- The header-parsing loop of `sendWebhookRequest`: the sequence of
(key, value) pairs passed to `http.addHeader`, in order. -/
def parseHeaders (s : List Char) : List (List Char × List Char) :=
  (splitLines s).filterMap processLine

/-! ### Config store, boot-time load, and `handleSave` -/

/-- The `Preferences` namespace `"grotbot"`: the six keys used by the
firmware. `none` models an absent key (`getString` then returns the
supplied default). -/
structure Store where
  ssid : Option (List Char)
  password : Option (List Char)
  webhook : Option (List Char)
  webhook_method : Option (List Char)
  webhook_headers : Option (List Char)
  webhook_payload : Option (List Char)
deriving DecidableEq

/-- The six global configuration strings of main.cpp. -/
structure DeviceConfig where
  ssid : List Char
  password : List Char
  webhookUrl : List Char
  webhookMethod : List Char
  webhookHeaders : List Char
  webhookPayload : List Char
deriving DecidableEq

/-- Boot-time configuration load (`setup`, main.cpp 161-172):
`getString` with defaults (`"GET"` for `webhook_method`, `""` for the
rest), then `trim()` applied to `ssid`, `password` and `webhookUrl`
only. -/
def bootLoad (st : Store) : DeviceConfig :=
  { ssid := trimS (st.ssid.getD [])
    password := trimS (st.password.getD [])
    webhookUrl := trimS (st.webhook.getD [])
    webhookMethod := st.webhook_method.getD ('G' :: 'E' :: 'T' :: [])
    webhookHeaders := st.webhook_headers.getD []
    webhookPayload := st.webhook_payload.getD [] }

/-- An HTTP POST to `/save`: each field is `some v` when the form
argument is present and `none` when absent.  `WebServer::arg` returns
the empty string for an absent argument. -/
structure SaveReq where
  ssid : Option (List Char)
  password : Option (List Char)
  webhook : Option (List Char)
  webhook_method : Option (List Char)
  webhook_headers : Option (List Char)
  webhook_payload : Option (List Char)
deriving DecidableEq

/-- Result of `handleSave`: persisted store, in-memory globals, HTTP
status code of the response, and the `configSaved` flag. -/
structure SaveResult where
  store : Store
  config : DeviceConfig
  statusCode : Nat
  configSaved : Bool
deriving DecidableEq

/-- `handleSave` (main.cpp 465-524).  Requires `hasArg` for `ssid`,
`password` and `webhook`; on success trims all six values and writes all
six keys with `putString`, answers 200 and sets `configSaved`; otherwise
answers 400 `"Missing required fields"` and writes nothing. -/
def handleSave (r : SaveReq) (st : Store) (cfg : DeviceConfig)
    (saved : Bool) : SaveResult :=
  if r.ssid.isSome && r.password.isSome && r.webhook.isSome then
    let ssid' := trimS (r.ssid.getD [])
    let password' := trimS (r.password.getD [])
    let webhookUrl' := trimS (r.webhook.getD [])
    let webhookMethod' := trimS (r.webhook_method.getD [])
    let webhookHeaders' := trimS (r.webhook_headers.getD [])
    let webhookPayload' := trimS (r.webhook_payload.getD [])
    { store := { ssid := some ssid', password := some password'
                 webhook := some webhookUrl'
                 webhook_method := some webhookMethod'
                 webhook_headers := some webhookHeaders'
                 webhook_payload := some webhookPayload' }
      config := { ssid := ssid', password := password'
                  webhookUrl := webhookUrl', webhookMethod := webhookMethod'
                  webhookHeaders := webhookHeaders'
                  webhookPayload := webhookPayload' }
      statusCode := 200
      configSaved := true }
  else
    { store := st, config := cfg, statusCode := 400, configSaved := saved }

/-! ### Clock arithmetic and runtime state -/

/-- `millis()` is a 32-bit unsigned counter; `now - last` in the source
is unsigned 32-bit subtraction. -/
def elapsed32 (now last : Nat) : Nat :=
  ((now % 4294967296) + 4294967296 - last % 4294967296) % 4294967296

def DEBOUNCE_TIME : Nat := 300
def SLEEP_TIMEOUT : Nat := 60000

/-- `WiFi.getMode()` combined with `WiFi.status()`, as tested by
`loop()`: `ap` is `WIFI_MODE_AP`; `staConn`/`staDisc` are
`WIFI_MODE_STA` with status `WL_CONNECTED` / not connected; `off` is any
other mode (no branch of `loop` applies). -/
inductive Mode
  | ap
  | staConn
  | staDisc
  | off
deriving DecidableEq

/-- The mutable globals of main.cpp that the interrupt handler and
`loop()` exchange.  `pendingRequests` is a C `int`, hence `Int`. -/
structure LoopState where
  mode : Mode
  pendingRequests : Int
  requestInProgress : Bool
  lastButtonPressTime : Nat
  lastActivityTime : Nat
  configSaved : Bool
  webhookUrl : List Char
deriving DecidableEq

/-- `buttonISR` (main.cpp 197-212), at a `millis()` reading `t`:
if `currentTime - lastButtonPressTime > DEBOUNCE_TIME` then atomically
increment `pendingRequests` and record `t` in `lastButtonPressTime` and
`lastActivityTime`; otherwise change nothing. -/
def buttonISR (s : LoopState) (t : Nat) : LoopState :=
  if DEBOUNCE_TIME < elapsed32 t s.lastButtonPressTime then
    { s with pendingRequests := s.pendingRequests + 1
             lastButtonPressTime := t
             lastActivityTime := t }
  else s

/-- State at the top of `sendWebhookRequest` (main.cpp 557-558):
`requestInProgress = true; lastActivityTime = millis()`. -/
def webhookCallEntry (s : LoopState) (t : Nat) : LoopState :=
  { s with requestInProgress := true, lastActivityTime := t }

/-- `sendWebhookRequest` (main.cpp 556-617) as a state transformer, with
`t` standing for the `millis()` readings inside the call.  With an empty
`webhookUrl` it returns early (lines 560-564); otherwise it performs the
blocking HTTP call (whose headers are `parseHeaders s.webhookHeaders`)
and finishes with `lastActivityTime = millis(); requestInProgress =
false` (lines 615-616). -/
def sendWebhookRequest (s : LoopState) (t : Nat) : LoopState :=
  let s1 := webhookCallEntry s t
  if s.webhookUrl.length = 0 then
    { s1 with requestInProgress := false }
  else
    { s1 with lastActivityTime := t, requestInProgress := false }

/-- The dispatch step of `loop()` (main.cpp 234-242): when
`pendingRequests > 0 && !requestInProgress`, decrement the counter, run
`sendWebhookRequest`, then `lastActivityTime = millis()`. -/
def dispatchStep (s : LoopState) (tD : Nat) : LoopState :=
  if 0 < s.pendingRequests ∧ s.requestInProgress = false then
    let s1 := sendWebhookRequest
      { s with pendingRequests := s.pendingRequests - 1 } tD
    { s1 with lastActivityTime := tD }
  else s

/-- How a `loop()` iteration ends: normally, by `ESP.restart()`, or by
`goToSleep()` (which detaches the interrupt, re-arms the GPIO wake
source and enters deep sleep, never returning). -/
inductive LoopExit
  | cont
  | restart
  | sleep
deriving DecidableEq

/-- One iteration of `loop()` (main.cpp 214-257).  `tD` is the
`millis()` reading around the dispatch, `now` the reading at the sleep
check (line 247).  In AP mode or disconnected STA mode the iteration
serves the captive portal (modelled as separate `Reachable` steps) and
restarts when `configSaved`; in connected STA mode it runs the dispatch
step and then, when `!requestInProgress && pendingRequests == 0` and
`millis() - lastActivityTime >= SLEEP_TIMEOUT`, invokes `goToSleep`. -/
def loopStep (s : LoopState) (tD now : Nat) : LoopState × LoopExit :=
  match s.mode with
  | Mode.ap | Mode.staDisc =>
      if s.configSaved then (s, LoopExit.restart) else (s, LoopExit.cont)
  | Mode.staConn =>
      let s1 := dispatchStep s tD
      if s1.requestInProgress = false ∧ s1.pendingRequests = 0 ∧
          SLEEP_TIMEOUT ≤ elapsed32 now s1.lastActivityTime then
        (s1, LoopExit.sleep)
      else (s1, LoopExit.cont)
  | Mode.off => (s, LoopExit.cont)

/-- `esp_sleep_get_wakeup_cause()` as discriminated by `setup()`. -/
inductive WakeCause
  | coldBoot
  | eventWake
  | timerWake
  | other
deriving DecidableEq

/-- State at the end of `setup()` (main.cpp 83-195): the globals start
at their initialisers (`pendingRequests = 0`, `requestInProgress =
false`, `lastButtonPressTime = 0`, `configSaved = false`), `setup` adds
one pending request iff the wake cause is the GPIO button wake,
`lastActivityTime` is the boot `millis()` reading, and the startup mode
and the loaded `webhookUrl` depend on the environment. -/
def bootState (w : WakeCause) (t0 : Nat) (m : Mode) (url : List Char) :
    LoopState :=
  { mode := m
    pendingRequests := if w = WakeCause.eventWake then 1 else 0
    requestInProgress := false
    lastButtonPressTime := 0
    lastActivityTime := t0
    configSaved := false
    webhookUrl := url }

/-- Effect of a `/save` request on the loop-level globals (`handleSave`,
main.cpp 465-524): `lastActivityTime = millis()` always; when the three
required arguments are present the globals are overwritten (here the
loop-relevant ones: `webhookUrl`, `configSaved`). -/
def applySave (s : LoopState) (r : SaveReq) (t : Nat) : LoopState :=
  if r.ssid.isSome && r.password.isSome && r.webhook.isSome then
    { s with lastActivityTime := t
             webhookUrl := trimS (r.webhook.getD [])
             configSaved := true }
  else
    { s with lastActivityTime := t }

/-- Reachable runtime states: any boot state, closed under interrupt
firings, `loop()` iterations, WiFi mode/status changes from the
environment, and captive-portal requests (`handleRoot` only touches
`lastActivityTime`; `handleSave` is `applySave`).  Steps are allowed
even after a `sleep`/`restart` exit, a conservative superset of the
device's behaviours. -/
inductive Reachable : LoopState → Prop
  | boot (w : WakeCause) (t0 : Nat) (m : Mode) (url : List Char) :
      Reachable (bootState w t0 m url)
  | isr (s : LoopState) (t : Nat) : Reachable s → Reachable (buttonISR s t)
  | iter (s : LoopState) (tD now : Nat) : Reachable s →
      Reachable (loopStep s tD now).1
  | wifiEnv (s : LoopState) (m : Mode) : Reachable s →
      Reachable { s with mode := m }
  | rootReq (s : LoopState) (t : Nat) : Reachable s →
      Reachable { s with lastActivityTime := t }
  | saveReq (s : LoopState) (r : SaveReq) (t : Nat) : Reachable s →
      Reachable (applySave s r t)

/-! ### `setupWiFi` (main.cpp 259-326) -/

def MAX_CONNECTION_ATTEMPTS : Nat := 10
def MAX_FULL_CONNECTION_ATTEMPTS : Nat := 3

/-- `wl_status_t`. -/
inductive WlStatus
  | idle
  | noSsidAvail
  | scanCompleted
  | connected
  | connectFailed
  | connectionLost
  | disconnected
deriving DecidableEq

/-- Externally visible actions of `setupWiFi`, in program order:
`WiFi.disconnect()`, `WiFi.begin(...)`, one `delay(CONNECTION_RETRY_DELAY)`
poll iteration, the `delay(3000)` between cycles, and the fallback
`setupAP()` / `setupWebServer()` calls.  (Diagnostic prints and the
static `setTxPower` call are not recorded.) -/
inductive WAct
  | disconnect
  | beginConn
  | pollDelay
  | interCycleDelay
  | startAP
  | startWebServer
deriving DecidableEq

/-- The WiFi environment: `env c j` is the `WiFi.status()` value
observed during cycle `c` after `j` completed polls (status reads are
taken as stable between two delays of the poll loop). -/
def ConnEnv := Nat → Nat → WlStatus

/-- Number of `delay(CONNECTION_RETRY_DELAY)` iterations of the inner
poll loop `while (WiFi.status() != WL_CONNECTED && attempts <
MAX_CONNECTION_ATTEMPTS)` in cycle `c`: the first poll count at which
the status reads connected, else `MAX_CONNECTION_ATTEMPTS`. -/
def pollsUsed (env : ConnEnv) (c : Nat) : Nat :=
  ((List.range (MAX_CONNECTION_ATTEMPTS + 1)).findIdx?
    (fun j => env c j == WlStatus.connected)).getD MAX_CONNECTION_ATTEMPTS

/-- Whether cycle `c` ends with `WiFi.status() == WL_CONNECTED`
(line 304), i.e. some status check of the cycle read connected. -/
def cycleOK (env : ConnEnv) (c : Nat) : Bool :=
  ((List.range (MAX_CONNECTION_ATTEMPTS + 1)).findIdx?
    (fun j => env c j == WlStatus.connected)).isSome

/-- Actions of one connection cycle up to the success check:
`WiFi.disconnect(); delay(1000); WiFi.begin(ssid, password);` then the
poll loop. -/
def cycleTrace (env : ConnEnv) (c : Nat) : List WAct :=
  WAct.disconnect :: WAct.beginConn ::
    List.replicate (pollsUsed env c) WAct.pollDelay

/-- The outer `for (fullAttempt = 0; fullAttempt <
MAX_FULL_CONNECTION_ATTEMPTS; fullAttempt++)` loop, by remaining fuel;
on success the function returns at once, on failure it waits
`delay(3000)` unless this was the last cycle; after the loop it falls
back to `setupAP(); setupWebServer()`. -/
def setupWiFiAux (env : ConnEnv) : Nat → Nat → List WAct
  | 0, _ => [WAct.startAP, WAct.startWebServer]
  | fuel + 1, c =>
      cycleTrace env c ++
        (if cycleOK env c then []
         else
           (if c < MAX_FULL_CONNECTION_ATTEMPTS - 1 then
             [WAct.interCycleDelay] else []) ++
           setupWiFiAux env fuel (c + 1))

/-- The full action trace of `setupWiFi`. -/
def setupWiFi (env : ConnEnv) : List WAct :=
  setupWiFiAux env MAX_FULL_CONNECTION_ATTEMPTS 0

/-! ### Helper lemmas -/

theorem dropWhile_idem (p : Char → Bool) (l : List Char) :
    (l.dropWhile p).dropWhile p = l.dropWhile p := by
  induction l with
  | nil => rfl
  | cons c t ih =>
    by_cases h : p c <;> simp [List.dropWhile_cons, h, ih]

theorem dropWhile_eq_self_head (p : Char → Bool) (c : Char) (t : List Char)
    (h : List.dropWhile p (c :: t) = c :: t) : p c = false := by
  by_contra hc
  rw [Bool.not_eq_false] at hc
  rw [List.dropWhile_cons, if_pos hc] at h
  have hle : (List.dropWhile p t).length ≤ t.length :=
    (List.dropWhile_sublist (l := t) (p := p)).length_le
  have := congrArg List.length h
  simp at this
  omega

/-- If a list is a fixed point of `dropWhile p`, then so is its
right-trimmed version. -/
theorem dropWhile_trimR (p : Char → Bool) (x : List Char)
    (hx : x.dropWhile p = x) :
    ((x.reverse.dropWhile p).reverse).dropWhile p =
      (x.reverse.dropWhile p).reverse := by
  cases x with
  | nil => simp
  | cons c t =>
    have hc : p c = false := dropWhile_eq_self_head p c t hx
    rw [List.reverse_cons, List.dropWhile_append]
    cases hd : t.reverse.dropWhile p with
    | nil => simp [hd, List.dropWhile_cons, hc]
    | cons d ds => simp [hd, List.reverse_append, List.dropWhile_cons, hc]

theorem trimS_idem (l : List Char) : trimS (trimS l) = trimS l := by
  unfold trimS
  rw [dropWhile_trimR isSpaceC (l.dropWhile isSpaceC) (dropWhile_idem _ _)]
  rw [List.reverse_reverse, dropWhile_idem]

theorem mem_trimS {x : Char} {l : List Char} (h : x ∈ trimS l) : x ∈ l := by
  unfold trimS at h
  rw [List.mem_reverse] at h
  have h1 := (List.dropWhile_sublist (p := isSpaceC)).subset h
  rw [List.mem_reverse] at h1
  exact (List.dropWhile_sublist (p := isSpaceC)).subset h1

theorem findIdxQ_eq_none {α : Type} {p : α → Bool} {l : List α}
    (h : ∀ x ∈ l, p x = false) : l.findIdx? p = none :=
  List.findIdx?_eq_none_iff.mpr h

theorem findIdxQ_lt_length {α : Type} {p : α → Bool} {l : List α} {i : Nat}
    (h : l.findIdx? p = some i) : i < l.length :=
  (List.findIdx?_eq_some_iff_findIdx_eq.mp h).1

theorem elapsed32_small {t0 t : Nat} (h1 : t0 ≤ t)
    (h2 : t - t0 < 4294967296) : elapsed32 t t0 = t - t0 := by
  unfold elapsed32
  omega

theorem foldl_buttonISR_const {s1 : LoopState} {rest : List Nat}
    (h : ∀ t ∈ rest, buttonISR s1 t = s1) :
    List.foldl buttonISR s1 rest = s1 := by
  induction rest with
  | nil => rfl
  | cons t ts ih =>
    rw [List.foldl_cons, h t (List.mem_cons_self t ts)]
    exact ih (fun u hu => h u (List.mem_cons_of_mem t hu))

theorem buttonISR_reject (s1 : LoopState) (t : Nat)
    (h : ¬ DEBOUNCE_TIME < elapsed32 t s1.lastButtonPressTime) :
    buttonISR s1 t = s1 := by
  unfold buttonISR
  rw [if_neg h]

theorem rip_sendWebhookRequest (s : LoopState) (t : Nat) :
    (sendWebhookRequest s t).requestInProgress = false := by
  unfold sendWebhookRequest webhookCallEntry
  split <;> rfl

theorem rip_dispatchStep (s : LoopState) (tD : Nat)
    (h : s.requestInProgress = false) :
    (dispatchStep s tD).requestInProgress = false := by
  unfold dispatchStep
  split
  · exact rip_sendWebhookRequest _ _
  · exact h

theorem pending_sendWebhookRequest (s : LoopState) (t : Nat) :
    (sendWebhookRequest s t).pendingRequests = s.pendingRequests := by
  unfold sendWebhookRequest webhookCallEntry
  split <;> rfl

theorem pending_dispatchStep (s : LoopState) (tD : Nat)
    (h : 0 ≤ s.pendingRequests) :
    0 ≤ (dispatchStep s tD).pendingRequests := by
  unfold dispatchStep
  split
  next hc =>
    show 0 ≤ (sendWebhookRequest
      { s with pendingRequests := s.pendingRequests - 1 } tD).pendingRequests
    rw [pending_sendWebhookRequest]
    show 0 ≤ s.pendingRequests - 1
    have := hc.1
    omega
  next hc => exact h

/-- The four possible shapes of the `setupWiFi` action trace, by which
cycle (if any) first succeeds. -/
theorem setupWiFi_eq (env : ConnEnv) :
    (cycleOK env 0 = true ∧ setupWiFi env = cycleTrace env 0) ∨
    (cycleOK env 0 = false ∧ cycleOK env 1 = true ∧
      setupWiFi env =
        cycleTrace env 0 ++ [WAct.interCycleDelay] ++ cycleTrace env 1) ∨
    (cycleOK env 0 = false ∧ cycleOK env 1 = false ∧ cycleOK env 2 = true ∧
      setupWiFi env =
        cycleTrace env 0 ++ [WAct.interCycleDelay] ++ cycleTrace env 1 ++
          [WAct.interCycleDelay] ++ cycleTrace env 2) ∨
    (cycleOK env 0 = false ∧ cycleOK env 1 = false ∧ cycleOK env 2 = false ∧
      setupWiFi env =
        cycleTrace env 0 ++ [WAct.interCycleDelay] ++ cycleTrace env 1 ++
          [WAct.interCycleDelay] ++ cycleTrace env 2 ++
          [WAct.startAP, WAct.startWebServer]) := by
  by_cases h0 : cycleOK env 0
  · exact Or.inl ⟨h0, by
      simp [setupWiFi, setupWiFiAux, MAX_FULL_CONNECTION_ATTEMPTS, h0]⟩
  · by_cases h1 : cycleOK env 1
    · refine Or.inr (Or.inl ⟨by simpa using h0, h1, ?_⟩)
      simp [setupWiFi, setupWiFiAux, MAX_FULL_CONNECTION_ATTEMPTS, h0, h1]
    · by_cases h2 : cycleOK env 2
      · refine Or.inr (Or.inr (Or.inl
          ⟨by simpa using h0, by simpa using h1, h2, ?_⟩))
        simp [setupWiFi, setupWiFiAux, MAX_FULL_CONNECTION_ATTEMPTS, h0, h1, h2]
      · refine Or.inr (Or.inr (Or.inr
          ⟨by simpa using h0, by simpa using h1, by simpa using h2, ?_⟩))
        simp [setupWiFi, setupWiFiAux, MAX_FULL_CONNECTION_ATTEMPTS, h0, h1, h2]

theorem count_cycleTrace (env : ConnEnv) (c : Nat) (a : WAct)
    (ha : a ≠ WAct.pollDelay) :
    (cycleTrace env c).count a =
      (if a = WAct.disconnect then 1 else 0) +
        (if a = WAct.beginConn then 1 else 0) := by
  cases a <;> simp_all [cycleTrace, List.count_cons, List.count_replicate]

theorem startAP_not_mem_cycleTrace (env : ConnEnv) (c : Nat) :
    WAct.startAP ∉ cycleTrace env c := by
  simp [cycleTrace, List.mem_replicate]

/-! ### Claims -/

/-- C1: a `loop()` iteration invokes `goToSleep` only when, at the
moment sleep is entered, `pendingRequests = 0` and `requestInProgress =
false`; equivalently, the device never enters sleep while work is
pending or a dispatch is in flight, regardless of how much idle time has
elapsed. -/
theorem claim_C1 (s : LoopState) (tD now : Nat)
    (h : (loopStep s tD now).2 = LoopExit.sleep) :
    (loopStep s tD now).1.pendingRequests = 0 ∧
      (loopStep s tD now).1.requestInProgress = false := by
  cases hm : s.mode <;> simp only [loopStep, hm] at h ⊢
  · split at h <;> simp_all
  · split at h
    next hc => rw [if_pos hc]; exact ⟨hc.2.1, hc.1⟩
    next hc => simp at h
  · split at h <;> simp_all
  · simp at h

theorem claim_C1_witness :
    (loopStep ⟨Mode.staConn, 0, false, 0, 0, false, []⟩ 0 60000).2 =
      LoopExit.sleep ∧
    (loopStep ⟨Mode.staConn, 0, false, 0, 0, false, []⟩ 0 60000).1.pendingRequests
      = 0 ∧
    (loopStep ⟨Mode.staConn, 0, false, 0, 0, false, []⟩ 0 60000).1.requestInProgress
      = false := by
  refine ⟨by decide, ?_, ?_⟩
  · exact (claim_C1 ⟨Mode.staConn, 0, false, 0, 0, false, []⟩ 0 60000
      (by decide)).1
  · exact (claim_C1 ⟨Mode.staConn, 0, false, 0, 0, false, []⟩ 0 60000
      (by decide)).2

/-- C2: while the WiFi mode is `AccessPoint`, a `loop()` iteration never
invokes `goToSleep`, for every pending-event count, flag and timestamp
and every idle duration. -/
theorem claim_C2 (s : LoopState) (tD now : Nat) (h : s.mode = Mode.ap) :
    (loopStep s tD now).2 ≠ LoopExit.sleep := by
  simp only [loopStep, h]
  split <;> simp

theorem claim_C2_witness :
    (loopStep ⟨Mode.ap, 0, false, 0, 0, false, []⟩ 0 99999999).2 ≠
      LoopExit.sleep :=
  claim_C2 ⟨Mode.ap, 0, false, 0, 0, false, []⟩ 0 99999999 rfl

/-- C3: for a sequence of `buttonISR` triggers whose first trigger is
accepted and whose later triggers each occur less than
`DEBOUNCE_TIME` (300 ms) after that accepted trigger, only the first
increments `pendingRequests` and records its time in
`lastButtonPressTime`/`lastActivityTime`; every later trigger leaves the
state completely unchanged. -/
theorem claim_C3 (s : LoopState) (t0 : Nat) (rest : List Nat)
    (hacc : DEBOUNCE_TIME < elapsed32 t0 s.lastButtonPressTime)
    (hrest : ∀ t ∈ rest, t0 ≤ t ∧ t - t0 < DEBOUNCE_TIME) :
    List.foldl buttonISR (buttonISR s t0) rest = buttonISR s t0 ∧
    (buttonISR s t0).pendingRequests = s.pendingRequests + 1 ∧
    (buttonISR s t0).lastButtonPressTime = t0 ∧
    (buttonISR s t0).lastActivityTime = t0 := by
  have hfirst : buttonISR s t0 =
      { s with pendingRequests := s.pendingRequests + 1
               lastButtonPressTime := t0
               lastActivityTime := t0 } := by
    unfold buttonISR
    rw [if_pos hacc]
  refine ⟨?_, by rw [hfirst], by rw [hfirst], by rw [hfirst]⟩
  apply foldl_buttonISR_const
  intro t ht
  obtain ⟨hle, hlt⟩ := hrest t ht
  apply buttonISR_reject
  rw [hfirst]
  show ¬ DEBOUNCE_TIME < elapsed32 t t0
  rw [elapsed32_small hle (by unfold DEBOUNCE_TIME at hlt; omega)]
  unfold DEBOUNCE_TIME at hlt ⊢
  omega

theorem claim_C3_witness :
    List.foldl buttonISR
        (buttonISR ⟨Mode.staConn, 0, false, 0, 0, false, []⟩ 1000)
        [1100, 1200, 1299] =
      buttonISR ⟨Mode.staConn, 0, false, 0, 0, false, []⟩ 1000 ∧
    (buttonISR ⟨Mode.staConn, 0, false, 0, 0, false, []⟩ 1000).pendingRequests
      = 0 + 1 ∧
    (buttonISR ⟨Mode.staConn, 0, false, 0, 0, false, []⟩ 1000).lastButtonPressTime
      = 1000 ∧
    (buttonISR ⟨Mode.staConn, 0, false, 0, 0, false, []⟩ 1000).lastActivityTime
      = 1000 :=
  claim_C3 ⟨Mode.staConn, 0, false, 0, 0, false, []⟩ 1000 [1100, 1200, 1299]
    (by decide) (by decide)

/-- C4: single-flight dispatch.  In every reachable state between steps
— for every sequence of boot, interrupt firings, loop iterations and
portal requests — `requestInProgress` is `false`; it is set to `true`
at the entry of a `sendWebhookRequest` call and is `false` again when
the call returns, so it is true exactly while a single webhook call is
running. -/
theorem claim_C4 :
    (∀ s : LoopState, Reachable s → s.requestInProgress = false) ∧
    (∀ (s : LoopState) (t : Nat),
      (webhookCallEntry s t).requestInProgress = true ∧
      (sendWebhookRequest s t).requestInProgress = false) := by
  constructor
  · intro s h
    induction h with
    | boot w t0 m url => rfl
    | isr s t _ ih =>
        unfold buttonISR
        split <;> simpa using ih
    | iter s tD now _ ih =>
        cases hm : s.mode <;> simp only [loopStep, hm]
        · split <;> exact ih
        · split <;> exact rip_dispatchStep s tD ih
        · split <;> exact ih
        · exact ih
    | wifiEnv s m _ ih => simpa using ih
    | rootReq s t _ ih => simpa using ih
    | saveReq s r t _ ih =>
        unfold applySave
        split <;> simpa using ih
  · intro s t
    refine ⟨rfl, ?_⟩
    unfold sendWebhookRequest webhookCallEntry
    split <;> rfl

theorem claim_C4_witness :
    (bootState WakeCause.coldBoot 0 Mode.ap []).requestInProgress = false ∧
    (webhookCallEntry (bootState WakeCause.coldBoot 0 Mode.ap [])
        5).requestInProgress = true :=
  ⟨claim_C4.1 _ (Reachable.boot WakeCause.coldBoot 0 Mode.ap []),
   (claim_C4.2 (bootState WakeCause.coldBoot 0 Mode.ap []) 5).1⟩

/-- C5: `pendingRequests` is never negative in any reachable state: the
interrupt handler only increments it and the loop decrements it only
under the guard `pendingRequests > 0`. -/
theorem claim_C5 : ∀ s : LoopState, Reachable s → 0 ≤ s.pendingRequests := by
  intro s h
  induction h with
  | boot w t0 m url =>
      unfold bootState
      split <;> simp
  | isr s t _ ih =>
      unfold buttonISR
      split
      · show 0 ≤ s.pendingRequests + 1
        omega
      · exact ih
  | iter s tD now _ ih =>
      cases hm : s.mode <;> simp only [loopStep, hm]
      · split <;> exact ih
      · split <;> exact pending_dispatchStep s tD ih
      · split <;> exact ih
      · exact ih
  | wifiEnv s m _ ih => simpa using ih
  | rootReq s t _ ih => simpa using ih
  | saveReq s r t _ ih =>
      unfold applySave
      split <;> simpa using ih

theorem claim_C5_witness :
    0 ≤ (bootState WakeCause.eventWake 0 Mode.staConn []).pendingRequests :=
  claim_C5 _ (Reachable.boot WakeCause.eventWake 0 Mode.staConn [])

/-- C6: `setupWiFi` runs at most `MAX_FULL_CONNECTION_ATTEMPTS` (3)
outer cycles, each starting with a disconnect and a fresh
`WiFi.begin` and polling at most `MAX_CONNECTION_ATTEMPTS` (10) times;
once a status check reads connected the function returns right after
that cycle's polls, without the AP fallback; if all three cycles fail it
does not fail fatally but starts AccessPoint mode and the captive-portal
web server. -/
theorem claim_C6 (env : ConnEnv) :
    ((setupWiFi env).count WAct.disconnect ≤ 3 ∧
     (setupWiFi env).count WAct.beginConn ≤ 3) ∧
    (∀ c, pollsUsed env c ≤ 10) ∧
    (∀ c, c < 3 → cycleOK env c = true →
      (∀ c', c' < c → cycleOK env c' = false) →
      (∃ pre, setupWiFi env = pre ++ cycleTrace env c) ∧
        WAct.startAP ∉ setupWiFi env ∧
        WAct.startWebServer ∉ setupWiFi env) ∧
    ((∀ c, c < 3 → cycleOK env c = false) →
      setupWiFi env =
        cycleTrace env 0 ++ [WAct.interCycleDelay] ++ cycleTrace env 1 ++
          [WAct.interCycleDelay] ++ cycleTrace env 2 ++
          [WAct.startAP, WAct.startWebServer]) := by
  have hpolls : ∀ c, pollsUsed env c ≤ 10 := by
    intro c
    unfold pollsUsed
    cases hi : (List.range (MAX_CONNECTION_ATTEMPTS + 1)).findIdx?
        (fun j => env c j == WlStatus.connected) with
    | none => simp [MAX_CONNECTION_ATTEMPTS]
    | some i =>
        have := findIdxQ_lt_length hi
        simp only [List.length_range, MAX_CONNECTION_ATTEMPTS] at this
        simp only [Option.getD_some]
        omega
  have hcount : ∀ (c : Nat) (a : WAct), a ≠ WAct.pollDelay →
      (cycleTrace env c).count a ≤ 1 := by
    intro c a ha
    rw [count_cycleTrace env c a ha]
    split <;> split <;> simp_all
  rcases setupWiFi_eq env with ⟨h0, he⟩ | ⟨h0, h1, he⟩ |
    ⟨h0, h1, h2, he⟩ | ⟨h0, h1, h2, he⟩
  · refine ⟨⟨?_, ?_⟩, hpolls, ?_, ?_⟩
    · calc (setupWiFi env).count WAct.disconnect ≤ 1 := he ▸ hcount 0 _ (by simp)
        _ ≤ 3 := by omega
    · calc (setupWiFi env).count WAct.beginConn ≤ 1 := he ▸ hcount 0 _ (by simp)
        _ ≤ 3 := by omega
    · intro c hc hok hmin
      have hc0 : c = 0 := by
        by_contra hne
        have := hmin 0 (by omega)
        simp [this] at h0
      subst hc0
      refine ⟨⟨[], by simpa using he⟩, ?_, ?_⟩ <;>
        simp [he, cycleTrace, List.mem_replicate]
    · intro hall
      have := hall 0 (by omega)
      simp [this] at h0
  · refine ⟨⟨?_, ?_⟩, hpolls, ?_, ?_⟩
    · rw [he]
      simp only [List.count_append]
      have a0 := hcount 0 WAct.disconnect (by simp)
      have a1 := hcount 1 WAct.disconnect (by simp)
      simp [List.count_cons, List.count_nil]
      omega
    · rw [he]
      simp only [List.count_append]
      have a0 := hcount 0 WAct.beginConn (by simp)
      have a1 := hcount 1 WAct.beginConn (by simp)
      simp [List.count_cons, List.count_nil]
      omega
    · intro c hc hok hmin
      have hc1 : c = 1 := by
        interval_cases c
        · simp [hok] at h0
        · rfl
        · have := hmin 1 (by omega)
          simp [this] at h1
      subst hc1
      refine ⟨⟨cycleTrace env 0 ++ [WAct.interCycleDelay], by
        rw [he]⟩, ?_, ?_⟩ <;>
        simp [he, cycleTrace, List.mem_replicate]
    · intro hall
      have := hall 1 (by omega)
      simp [this] at h1
  · refine ⟨⟨?_, ?_⟩, hpolls, ?_, ?_⟩
    · rw [he]
      simp only [List.count_append]
      have a0 := hcount 0 WAct.disconnect (by simp)
      have a1 := hcount 1 WAct.disconnect (by simp)
      have a2 := hcount 2 WAct.disconnect (by simp)
      simp [List.count_cons, List.count_nil]
      omega
    · rw [he]
      simp only [List.count_append]
      have a0 := hcount 0 WAct.beginConn (by simp)
      have a1 := hcount 1 WAct.beginConn (by simp)
      have a2 := hcount 2 WAct.beginConn (by simp)
      simp [List.count_cons, List.count_nil]
      omega
    · intro c hc hok hmin
      have hc2 : c = 2 := by
        interval_cases c
        · simp [hok] at h0
        · simp [hok] at h1
        · rfl
      subst hc2
      refine ⟨⟨cycleTrace env 0 ++ [WAct.interCycleDelay] ++
          cycleTrace env 1 ++ [WAct.interCycleDelay], by
        rw [he]⟩, ?_, ?_⟩ <;>
        simp [he, cycleTrace, List.mem_replicate]
    · intro hall
      have := hall 2 (by omega)
      simp [this] at h2
  · refine ⟨⟨?_, ?_⟩, hpolls, ?_, ?_⟩
    · rw [he]
      simp only [List.count_append]
      have a0 := hcount 0 WAct.disconnect (by simp)
      have a1 := hcount 1 WAct.disconnect (by simp)
      have a2 := hcount 2 WAct.disconnect (by simp)
      simp [List.count_cons, List.count_nil]
      omega
    · rw [he]
      simp only [List.count_append]
      have a0 := hcount 0 WAct.beginConn (by simp)
      have a1 := hcount 1 WAct.beginConn (by simp)
      have a2 := hcount 2 WAct.beginConn (by simp)
      simp [List.count_cons, List.count_nil]
      omega
    · intro c hc hok hmin
      interval_cases c
      · simp [hok] at h0
      · simp [hok] at h1
      · simp [hok] at h2
    · intro _
      exact he

theorem claim_C6_witness :
    setupWiFi (fun _ _ => WlStatus.disconnected) =
      cycleTrace (fun _ _ => WlStatus.disconnected) 0 ++
        [WAct.interCycleDelay] ++
        cycleTrace (fun _ _ => WlStatus.disconnected) 1 ++
        [WAct.interCycleDelay] ++
        cycleTrace (fun _ _ => WlStatus.disconnected) 2 ++
        [WAct.startAP, WAct.startWebServer] :=
  (claim_C6 (fun _ _ => WlStatus.disconnected)).2.2.2 (by decide)

/-- C7: header parsing splits on newlines into `Key: Value` pairs; a
blank (whitespace-only) line or a line without a colon is ignored; key
and value are trimmed before use; and the input
`"Content-Type: application/json\n\nBad Line"` yields exactly the one
pair `Content-Type -> application/json`. -/
theorem claim_C7 :
    parseHeaders ("Content-Type: application/json\n\nBad Line".toList) =
      [("Content-Type".toList, "application/json".toList)] ∧
    (∀ line : List Char, trimS line = [] → processLine line = none) ∧
    (∀ line : List Char, ':' ∉ line → processLine line = none) ∧
    (∀ (s : List Char) (kv : List Char × List Char), kv ∈ parseHeaders s →
      trimS kv.1 = kv.1 ∧ trimS kv.2 = kv.2) := by
  refine ⟨by decide, ?_, ?_, ?_⟩
  · intro line h
    simp [processLine, h]
  · intro line h
    have hnone : (trimS line).findIdx? (fun x => x == ':') = none := by
      apply findIdxQ_eq_none
      intro x hx
      rw [beq_eq_false_iff_ne]
      intro he
      subst he
      exact h (mem_trimS hx)
    simp [processLine, idxOf, hnone]
  · intro s kv hkv
    unfold parseHeaders at hkv
    rw [List.mem_filterMap] at hkv
    obtain ⟨line, _, hproc⟩ := hkv
    simp only [processLine] at hproc
    split_ifs at hproc with h1 h2
    injection hproc with h3
    rw [← h3]
    exact ⟨trimS_idem _, trimS_idem _⟩

theorem claim_C7_witness :
    processLine ("   ".toList) = none ∧
    processLine ("Bad Line".toList) = none ∧
    (trimS ("Content-Type".toList) = "Content-Type".toList ∧
     trimS ("application/json".toList) = "application/json".toList) :=
  ⟨claim_C7.2.1 ("   ".toList) (by decide),
   claim_C7.2.2.1 ("Bad Line".toList) (by decide),
   claim_C7.2.2.2 ("Content-Type: application/json".toList)
     ("Content-Type".toList, "application/json".toList) (by decide)⟩

/-- C8 counterexample: at boot the `webhook_method` value is loaded
without trimming — with `" POST "` stored, the in-memory
`webhookMethod` keeps its surrounding spaces, so not every string field
is trimmed before use when loaded from the store. -/
theorem claim_C8_counterexample :
    trimS (bootLoad ⟨none, none, none, some (" POST ".toList), none,
        none⟩).webhookMethod ≠
      (bootLoad ⟨none, none, none, some (" POST ".toList), none,
        none⟩).webhookMethod := by decide

/-- C8 (amended): on save all six configuration fields are trimmed
before use and persistence, but at boot only `ssid`, `password` and
`webhookUrl` are trimmed after loading; `webhookMethod`,
`webhookHeaders` and `webhookPayload` are loaded verbatim from the
store. -/
theorem claim_C8_amended :
    (∀ st : Store,
      trimS (bootLoad st).ssid = (bootLoad st).ssid ∧
      trimS (bootLoad st).password = (bootLoad st).password ∧
      trimS (bootLoad st).webhookUrl = (bootLoad st).webhookUrl ∧
      (bootLoad st).webhookMethod =
        st.webhook_method.getD ('G' :: 'E' :: 'T' :: []) ∧
      (bootLoad st).webhookHeaders = st.webhook_headers.getD [] ∧
      (bootLoad st).webhookPayload = st.webhook_payload.getD []) ∧
    (∀ (r : SaveReq) (st : Store) (cfg : DeviceConfig) (saved : Bool),
      (handleSave r st cfg saved).statusCode = 200 →
      trimS (handleSave r st cfg saved).config.ssid =
          (handleSave r st cfg saved).config.ssid ∧
        trimS (handleSave r st cfg saved).config.password =
          (handleSave r st cfg saved).config.password ∧
        trimS (handleSave r st cfg saved).config.webhookUrl =
          (handleSave r st cfg saved).config.webhookUrl ∧
        trimS (handleSave r st cfg saved).config.webhookMethod =
          (handleSave r st cfg saved).config.webhookMethod ∧
        trimS (handleSave r st cfg saved).config.webhookHeaders =
          (handleSave r st cfg saved).config.webhookHeaders ∧
        trimS (handleSave r st cfg saved).config.webhookPayload =
          (handleSave r st cfg saved).config.webhookPayload) := by
  constructor
  · intro st
    exact ⟨trimS_idem _, trimS_idem _, trimS_idem _, rfl, rfl, rfl⟩
  · intro r st cfg saved h
    unfold handleSave at h ⊢
    split at h
    next hc =>
      rw [if_pos hc]
      exact ⟨trimS_idem _, trimS_idem _, trimS_idem _, trimS_idem _,
        trimS_idem _, trimS_idem _⟩
    next hc =>
      simp at h

theorem claim_C8_amended_witness :
    trimS (bootLoad ⟨some (" a ".toList), none, none, none, none,
        none⟩).ssid =
      (bootLoad ⟨some (" a ".toList), none, none, none, none,
        none⟩).ssid ∧
    trimS (handleSave ⟨some (" a ".toList), some ("b".toList),
        some ("c".toList), none, none, none⟩
        ⟨none, none, none, none, none, none⟩ ⟨[], [], [], [], [], []⟩
        false).config.ssid =
      (handleSave ⟨some (" a ".toList), some ("b".toList),
        some ("c".toList), none, none, none⟩
        ⟨none, none, none, none, none, none⟩ ⟨[], [], [], [], [], []⟩
        false).config.ssid :=
  ⟨(claim_C8_amended.1 ⟨some (" a ".toList), none, none, none, none,
      none⟩).1,
   (claim_C8_amended.2 ⟨some (" a ".toList), some ("b".toList),
      some ("c".toList), none, none, none⟩
      ⟨none, none, none, none, none, none⟩ ⟨[], [], [], [], [], []⟩
      false (by decide)).1⟩

/-- C9: a save request missing one of the required arguments (`ssid`,
`password`, `webhook`) is answered synchronously with the 400 error
response and nothing changes: no key of the persistent store is
written, the in-memory configuration is untouched and the restart flag
keeps its value. -/
theorem claim_C9 (r : SaveReq) (st : Store) (cfg : DeviceConfig)
    (saved : Bool)
    (h : (r.ssid.isSome && r.password.isSome && r.webhook.isSome) = false) :
    (handleSave r st cfg saved).statusCode = 400 ∧
    (handleSave r st cfg saved).store = st ∧
    (handleSave r st cfg saved).config = cfg ∧
    (handleSave r st cfg saved).configSaved = saved := by
  unfold handleSave
  rw [if_neg (by simp [h])]
  exact ⟨rfl, rfl, rfl, rfl⟩

theorem claim_C9_witness :
    (handleSave ⟨some ("a".toList), none, some ("c".toList), none, none,
        none⟩ ⟨some ("x".toList), none, none, none, none, none⟩
        ⟨[], [], [], [], [], []⟩ false).statusCode = 400 ∧
    (handleSave ⟨some ("a".toList), none, some ("c".toList), none, none,
        none⟩ ⟨some ("x".toList), none, none, none, none, none⟩
        ⟨[], [], [], [], [], []⟩ false).store =
      ⟨some ("x".toList), none, none, none, none, none⟩ ∧
    (handleSave ⟨some ("a".toList), none, some ("c".toList), none, none,
        none⟩ ⟨some ("x".toList), none, none, none, none, none⟩
        ⟨[], [], [], [], [], []⟩ false).config = ⟨[], [], [], [], [], []⟩ ∧
    (handleSave ⟨some ("a".toList), none, some ("c".toList), none, none,
        none⟩ ⟨some ("x".toList), none, none, none, none, none⟩
        ⟨[], [], [], [], [], []⟩ false).configSaved = false :=
  claim_C9 ⟨some ("a".toList), none, some ("c".toList), none, none, none⟩
    ⟨some ("x".toList), none, none, none, none, none⟩
    ⟨[], [], [], [], [], []⟩ false (by decide)

/-- C10: only `ssid`, `password` and `webhook` are required by
`handleSave`; a request carrying those three but omitting
`webhook_method`, `webhook_headers` and `webhook_payload` is accepted
(200 response, restart flag set) and persists the empty string for each
omitted field, overwriting whatever the store previously held. -/
theorem claim_C10 (r : SaveReq) (st : Store) (cfg : DeviceConfig)
    (saved : Bool)
    (h1 : r.ssid.isSome = true) (h2 : r.password.isSome = true)
    (h3 : r.webhook.isSome = true) (h4 : r.webhook_method = none)
    (h5 : r.webhook_headers = none) (h6 : r.webhook_payload = none) :
    (handleSave r st cfg saved).statusCode = 200 ∧
    (handleSave r st cfg saved).configSaved = true ∧
    (handleSave r st cfg saved).store.ssid =
      some (trimS (r.ssid.getD [])) ∧
    (handleSave r st cfg saved).store.webhook_method = some [] ∧
    (handleSave r st cfg saved).store.webhook_headers = some [] ∧
    (handleSave r st cfg saved).store.webhook_payload = some [] := by
  unfold handleSave
  rw [if_pos (by simp [h1, h2, h3])]
  refine ⟨rfl, rfl, rfl, ?_, ?_, ?_⟩ <;>
    simp [h4, h5, h6, trimS]

theorem claim_C10_witness :
    (handleSave ⟨some ("a".toList), some ("b".toList), some ("c".toList),
        none, none, none⟩
        ⟨none, none, none, some ("POST".toList), some ("X: 1".toList),
          some ("p".toList)⟩
        ⟨[], [], [], [], [], []⟩ false).statusCode = 200 ∧
    (handleSave ⟨some ("a".toList), some ("b".toList), some ("c".toList),
        none, none, none⟩
        ⟨none, none, none, some ("POST".toList), some ("X: 1".toList),
          some ("p".toList)⟩
        ⟨[], [], [], [], [], []⟩ false).store.webhook_method = some [] :=
  ⟨(claim_C10 ⟨some ("a".toList), some ("b".toList), some ("c".toList),
      none, none, none⟩
      ⟨none, none, none, some ("POST".toList), some ("X: 1".toList),
        some ("p".toList)⟩
      ⟨[], [], [], [], [], []⟩ false rfl rfl rfl rfl rfl rfl).1,
   (claim_C10 ⟨some ("a".toList), some ("b".toList), some ("c".toList),
      none, none, none⟩
      ⟨none, none, none, some ("POST".toList), some ("X: 1".toList),
        some ("p".toList)⟩
      ⟨[], [], [], [], [], []⟩ false rfl rfl rfl rfl rfl rfl).2.2.2.1⟩

end GrotButton
